import Mathlib

/-!
Shallow embedding of the realsense2sdcard repository (two C++ programs:
src/rpi_streamer.cpp, the UDP frame streamer, and src/10s-save.cpp, the
offline frame saver), together with proofs settling the frozen claims
about the natural-language specification.

Conventions of the embedding:
* machine integers are `Nat` with an explicit `% 2 ^ w` wherever the C++
  code stores into a fixed-width field (`uint32_t`, `uint64_t`, `uint16_t`);
* byte buffers are `List Nat` (each entry one byte value);
* the `while (true)` streaming loop is modelled as a fold over the list of
  iteration inputs (frameset delivered by the camera, the two clock samples
  taken during the iteration, and whether the OS accepts the datagram);
* observable behaviour (packets built, datagrams handed to `sendto`,
  diagnostics, FPS reports) is collected in an event trace.
-/

namespace RS2

/-- Little-endian byte decomposition: the `w` low-order bytes of `v`,
least significant first.  This is how a little-endian machine (the
Raspberry Pi / x86-64 targets of this code) lays out an unsigned integer
field in memory, hence what `memcpy` of the struct puts on the wire. -/
def leBytes : Nat → Nat → List Nat
  | 0, _ => []
  | w + 1, v => v % 256 :: leBytes w (v / 256)

/-- Value of a little-endian byte list (least significant byte first). -/
def leVal (bs : List Nat) : Nat :=
  bs.foldr (fun b acc => b + 256 * acc) 0

/-- Read `len` bytes at offset `off` of buffer `bs`, little-endian. -/
def readLE (bs : List Nat) (off len : Nat) : Nat :=
  leVal ((bs.drop off).take len)

/-- The `NetworkFrame` struct of src/rpi_streamer.cpp (lines 13-20):
`frame_id : uint32_t`, `timestamp : uint64_t`, `width height : uint16_t`,
`rgb_size depth_size : uint32_t`.  Fields are `Nat`s that are kept below
their C type's bound by the code that fills them (`mkHeader`). -/
structure NetworkFrame where
  frame_id : Nat
  timestamp : Nat
  width : Nat
  height : Nat
  rgb_size : Nat
  depth_size : Nat
deriving DecidableEq, Repr

/-- Byte image of the `NetworkFrame` struct as `memcpy` copies it
(rpi_streamer.cpp line 97).  On the target ABIs (AArch64 / ARM EABI /
x86-64 Linux) `uint64_t` has alignment 8, so the compiler inserts 4
padding bytes after `frame_id` and 4 tail padding bytes after
`depth_size`: offsets are frame_id 0, timestamp 8, width 16, height 18,
rgb_size 20, depth_size 24, and `sizeof(NetworkFrame) = 32`.  Padding
bytes are modelled as zero. -/
def serializeNetworkFrame (h : NetworkFrame) : List Nat :=
  leBytes 4 h.frame_id ++
    (leBytes 4 0 ++
      (leBytes 8 h.timestamp ++
        (leBytes 2 h.width ++
          (leBytes 2 h.height ++
            (leBytes 4 h.rgb_size ++
              (leBytes 4 h.depth_size ++ leBytes 4 0))))))

/-- One video frame as delivered by librealsense: its reported width and
height and its raw data bytes (`get_data` / `get_data_size`). -/
structure VideoFrame where
  width : Nat
  height : Nat
  data : List Nat
deriving DecidableEq, Repr

/-- One frameset as returned by `pipe.wait_for_frames()` in the streamer:
the color frame and the depth frame, either of which may be absent
(rpi_streamer.cpp line 80 tests `if (!color || !depth)`). -/
structure Frameset where
  color : Option VideoFrame
  depth : Option VideoFrame
deriving DecidableEq, Repr

/-- Environment inputs consumed by one iteration of the streaming loop:
the frameset, the `high_resolution_clock` sample used for the header
timestamp (line 85), the `steady_clock` sample (milliseconds) used for FPS
monitoring (line 122), and whether the OS accepts the `sendto` call. -/
structure IterInput where
  frameset : Frameset
  ts : Nat
  now : Nat
  sendOk : Bool
deriving DecidableEq, Repr

/-- Mutable state of the streaming loop of rpi_streamer.cpp: `frame_count`
(line 71, a `uint32_t` counter; modelled as an unbounded `Nat`, reduced
`% 2 ^ 32` at the single place it is stored into the `uint32_t` header
field, which is observationally identical to a wrapping counter),
`fps_counter` (line 73) and `last_fps_time` (line 72, milliseconds). -/
structure StreamState where
  frame_count : Nat
  fps_counter : Nat
  last_fps_time : Nat
deriving DecidableEq, Repr

/-- Observable events of one run of the streaming loop. -/
inductive Event where
  | packetBuilt (h : NetworkFrame) (p : List Nat)
  | oversizeWarning
  | sendAttempt (p : List Nat) (ok : Bool)
  | sendDiag
  | fpsReport (fps : Nat) (frameSizeKB : Nat)
deriving DecidableEq, Repr

/-- Header construction, rpi_streamer.cpp lines 83-90: each field is the
source expression reduced into the C field type's width. -/
def mkHeader (fc ts : Nat) (c d : VideoFrame) : NetworkFrame :=
  { frame_id := fc % 2 ^ 32
    timestamp := ts % 2 ^ 64
    width := c.width % 2 ^ 16
    height := c.height % 2 ^ 16
    rgb_size := c.data.length % 2 ^ 32
    depth_size := d.data.length % 2 ^ 32 }

/-- Packet construction, rpi_streamer.cpp lines 92-105: the struct bytes,
then `header.rgb_size` bytes of color data, then `header.depth_size`
bytes of depth data (the `memcpy` calls copy exactly the header's size
fields). -/
def buildPacket (h : NetworkFrame) (c d : List Nat) : List Nat :=
  serializeNetworkFrame h ++ (c.take h.rgb_size ++ d.take h.depth_size)

/-- The packetization policy of rpi_streamer.cpp lines 92-111 as a
standalone function: build the header and the single packet; if
`total_size = sizeof(NetworkFrame) + rgb_size + depth_size` exceeds the
65507-byte UDP payload limit the frame is dropped (`continue` after a
warning) and no datagram at all is produced; otherwise the one full
packet is produced.  There is no fragmentation path in the source. -/
def encode (fc ts : Nat) (c d : VideoFrame) : List (List Nat) :=
  let h := mkHeader fc ts c d
  let p := buildPacket h c.data d.data
  if 32 + h.rgb_size + h.depth_size > 65507 then [] else [p]

/-- One iteration of the `while (true)` loop, rpi_streamer.cpp lines
75-128.  Returns the successor state and the trace of observable events
of the iteration. -/
def step (s : StreamState) (i : IterInput) : StreamState × List Event :=
  match i.frameset.color, i.frameset.depth with
  | some c, some d =>
    let h := mkHeader s.frame_count i.ts c d
    let p := buildPacket h c.data d.data
    let total := 32 + h.rgb_size + h.depth_size
    let s1 : StreamState := { s with frame_count := s.frame_count + 1 }
    if total > 65507 then
      (s1, [Event.packetBuilt h p, Event.oversizeWarning])
    else
      let sendEvs :=
        Event.sendAttempt p i.sendOk ::
          (if i.sendOk then [] else [Event.sendDiag])
      let s2 : StreamState := { s1 with fps_counter := s1.fps_counter + 1 }
      if (i.now - s2.last_fps_time) / 1000 ≥ 1 then
        ({ s2 with fps_counter := 0, last_fps_time := i.now },
          Event.packetBuilt h p ::
            (sendEvs ++ [Event.fpsReport s2.fps_counter (total / 1024)]))
      else
        (s2, Event.packetBuilt h p :: sendEvs)
  | _, _ => (s, [])

/-- Run of the streaming loop over a list of iteration inputs. -/
def runStream (s : StreamState) : List IterInput → StreamState × List Event
  | [] => (s, [])
  | i :: rest =>
    let r := step s i
    let r' := runStream r.1 rest
    (r'.1, r.2 ++ r'.2)

/-- The state right after rpi_streamer.cpp lines 71-73: `frame_count = 0`,
`fps_counter = 0`, `last_fps_time` is the session start instant. -/
def initState (t0 : Nat) : StreamState :=
  { frame_count := 0, fps_counter := 0, last_fps_time := t0 }

/-- The headers written into packet buffers during a run. -/
def builtHeaders (evs : List Event) : List NetworkFrame :=
  evs.filterMap fun e =>
    match e with
    | Event.packetBuilt h _ => some h
    | _ => none

/-- The datagrams handed to `sendto` during a run. -/
def sendAttemptsOf (evs : List Event) : List (List Nat) :=
  evs.filterMap fun e =>
    match e with
    | Event.sendAttempt p _ => some p
    | _ => none

/-- The FPS reports printed during a run: each carries the packet count
since the previous report and the last frame's `total_size / 1024`. -/
def fpsReports (evs : List Event) : List (Nat × Nat) :=
  evs.filterMap fun e =>
    match e with
    | Event.fpsReport a b => some (a, b)
    | _ => none

/-- Result of decoding one wire packet back into frame data. -/
structure DecodedFrame where
  frame_id : Nat
  timestamp : Nat
  width : Nat
  height : Nat
  rgb : List Nat
  depth : List Nat
deriving DecidableEq, Repr

/-- Modelled from the spec: the receiver-side `decode` is not part of this
repository (only the sender is under src/); spec section 4.2/6 defines it
as parsing the wire header
`frame_id:u32 | timestamp:u64 | width:u16 | height:u16 | rgb_size:u32 |
depth_size:u32` as a packed 24-byte record, then taking `rgb_size` color
bytes and `depth_size` depth bytes, failing (`CorruptPacket`, here
`none`) when the declared sizes do not match the bytes actually
present. -/
def decodeSpec (p : List Nat) : Option DecodedFrame :=
  if p.length < 24 then none
  else
    let rgbsz := readLE p 16 4
    let depsz := readLE p 20 4
    if p.length = 24 + rgbsz + depsz then
      some { frame_id := readLE p 0 4
             timestamp := readLE p 4 8
             width := readLE p 12 2
             height := readLE p 14 2
             rgb := (p.drop 24).take rgbsz
             depth := p.drop (24 + rgbsz) }
    else none

/-- Modelled from the spec: the same receiver-side `decode` contract
(parse the header fields, take `rgb_size` then `depth_size` payload
bytes, fail when the declared sizes do not match the bytes present), but
reading the fields at the offsets the sender actually uses — the 32-byte
padded struct image of `serializeNetworkFrame` — instead of the spec's
packed 24-byte layout. -/
def decodeActual (p : List Nat) : Option DecodedFrame :=
  if p.length < 32 then none
  else
    let rgbsz := readLE p 20 4
    let depsz := readLE p 24 4
    if p.length = 32 + rgbsz + depsz then
      some { frame_id := readLE p 0 4
             timestamp := readLE p 8 8
             width := readLE p 16 2
             height := readLE p 18 2
             rgb := (p.drop 32).take rgbsz
             depth := p.drop (32 + rgbsz) }
    else none

/-- Number of framesets discarded by the stabilization loops
(rpi_streamer.cpp line 69 and 10s-save.cpp lines 54-57): both run
`for (i = 0; i < 30; ++i) pipe.wait_for_frames();`. -/
def stabilizationFrames : Nat := 30

/-- The whole streaming session of rpi_streamer.cpp after `pipe.start`:
the stabilization loop consumes the first 30 framesets without producing
any output, then the streaming loop processes the remainder. -/
def rpiStreamerSession (t0 : Nat) (inputs : List IterInput) :
    StreamState × List Event :=
  runStream (initState t0) (inputs.drop stabilizationFrames)

/-- Decimal digit characters of a natural number, most significant first:
the rendering `std::stringstream` uses for integers in
10s-save.cpp's `create_filename`. -/
def natDigits (n : Nat) : List Char :=
  if h : n < 10 then [Char.ofNat (48 + n)]
  else
    have : n / 10 < n := Nat.div_lt_self (by omega) (by omega)
    natDigits (n / 10) ++ [Char.ofNat (48 + n % 10)]

/-- Decimal rendering of a natural number as a string. -/
def natStr (n : Nat) : String :=
  String.mk (natDigits n)

/-- The effect of `std::setfill('0') << std::setw(6)` on the frame
number: left-pad the decimal rendering with zeros to width 6 (wider
numbers are kept whole). -/
def pad6 (n : Nat) : String :=
  String.mk (List.replicate (6 - (natDigits n).length) '0' ++ natDigits n)

/-- The `create_filename` helper of 10s-save.cpp lines 150-157:
`base_dir/frame_<6-digit frame number>_<timestamp>_<stream name><ext>`. -/
def create_filename (base_dir stream_name : String) (frame_number : Nat)
    (timestamp : Nat) (extension : String) : String :=
  base_dir ++ "/frame_" ++ pad6 frame_number ++ "_" ++ natStr timestamp ++
    "_" ++ stream_name ++ extension

/-- Stream type of a frame inside a frameset of 10s-save.cpp. -/
inductive StreamKind where
  | color
  | depth
  | other
deriving DecidableEq, Repr

/-- One frame of a frameset as iterated by 10s-save.cpp line 87:
whether `frame.as<rs2::video_frame>()` succeeds, and its stream type. -/
structure SavedStreamFrame where
  isVideo : Bool
  kind : StreamKind
deriving DecidableEq, Repr

/-- The filenames written for one frame of a frameset, 10s-save.cpp lines
87-118: non-video frames are skipped; a color frame yields the color PNG
and color metadata CSV; a depth frame yields the raw depth PNG, the
colorized depth PNG and the depth metadata CSV. -/
def filesForFrame (frame_count timestamp : Nat) (f : SavedStreamFrame) :
    List String :=
  if f.isVideo then
    match f.kind with
    | StreamKind.color =>
        [create_filename "captured_data/rgb" "color" frame_count timestamp
            ".png",
          create_filename "captured_data/metadata" "color" frame_count
            timestamp "_metadata.csv"]
    | StreamKind.depth =>
        [create_filename "captured_data/depth" "depth" frame_count timestamp
            ".png",
          create_filename "captured_data/depth" "depth_colorized" frame_count
            timestamp ".png",
          create_filename "captured_data/metadata" "depth" frame_count
            timestamp "_metadata.csv"]
    | StreamKind.other => []
  else []

/-- All filenames written during one iteration of the 10s-save.cpp capture
loop, in frameset iteration order. -/
def filesForIteration (frame_count timestamp : Nat)
    (fs : List SavedStreamFrame) : List String :=
  fs.flatMap (filesForFrame frame_count timestamp)

/-- The 10s-save.cpp capture loop (lines 69-128): per iteration the
timestamp is sampled once (line 79) before any file is written, then
`frame_count` is incremented (line 84), and all files of the iteration
are named with that one `frame_count` value and that one timestamp.  The
input list carries, per iteration, the sampled timestamp and the
frameset.  Returns the per-iteration filename lists. -/
def saveRun (frame_count : Nat) :
    List (Nat × List SavedStreamFrame) → List (List String)
  | [] => []
  | (ts, fs) :: rest =>
    filesForIteration (frame_count + 1) ts fs :: saveRun (frame_count + 1) rest

/-- The whole capture phase of 10s-save.cpp after `pipe.start`: the
stabilization loop consumes the first 30 framesets producing no files
(lines 54-57), then the capture loop processes the remainder starting
from `frame_count = 0` (line 64). -/
def saveSession (inputs : List (Nat × List SavedStreamFrame)) :
    List (List String) :=
  saveRun 0 (inputs.drop stabilizationFrames)

/-- Cause of termination of the rpi_streamer process once the streaming
loop has been entered: the loop is `while (true)`, so the only way out of
the `try` block is a thrown `rs2::error` (device error). -/
inductive TermCause where
  | deviceError
deriving DecidableEq, Repr

/-- Process exit code of rpi_streamer.cpp's `main`: `-1` for a wrong
argument count (line 33) or a failed socket creation (line 43); once
streaming, an `rs2::error` is caught at line 131, a diagnostic is printed,
and control falls through to `close(sock); return 0;` (lines 135-136). -/
def rpiStreamerExitCode (argcValid socketOk : Bool) (cause : TermCause) :
    Int :=
  if argcValid = false then -1
  else if socketOk = false then -1
  else
    match cause with
    | TermCause.deviceError => 0

theorem leBytes_length (w v : Nat) : (leBytes w v).length = w := by
  induction w generalizing v with
  | zero => rfl
  | succ w ih => simp [leBytes, ih]

theorem leVal_leBytes (w v : Nat) : leVal (leBytes w v) = v % 256 ^ w := by
  induction w generalizing v with
  | zero => simp [leBytes, leVal, Nat.mod_one]
  | succ w ih =>
    have h256 : (256 : Nat) ^ (w + 1) = 256 * 256 ^ w := by
      rw [pow_succ, Nat.mul_comm]
    rw [h256, Nat.mod_mul]
    simp only [leBytes, leVal, List.foldr_cons]
    have := ih (v / 256)
    simp only [leVal] at this
    rw [this]

theorem readLE_here (w v : Nat) (rest : List Nat) :
    readLE (leBytes w v ++ rest) 0 w = v % 256 ^ w := by
  unfold readLE
  rw [List.drop_zero, List.take_left' (leBytes_length w v), leVal_leBytes]

theorem readLE_skip (x rest : List Nat) (off w n : Nat)
    (hn : n = x.length + off) :
    readLE (x ++ rest) n w = readLE rest off w := by
  unfold readLE
  rw [hn, List.drop_append]

theorem serializeNetworkFrame_length (h : NetworkFrame) :
    (serializeNetworkFrame h).length = 32 := by
  simp [serializeNetworkFrame, leBytes_length]

theorem buildPacket_expand (h : NetworkFrame) (c d : List Nat) :
    buildPacket h c d =
      leBytes 4 h.frame_id ++ (leBytes 4 0 ++ (leBytes 8 h.timestamp ++
        (leBytes 2 h.width ++ (leBytes 2 h.height ++ (leBytes 4 h.rgb_size ++
          (leBytes 4 h.depth_size ++ (leBytes 4 0 ++
            (c.take h.rgb_size ++ d.take h.depth_size)))))))) := by
  simp [buildPacket, serializeNetworkFrame, List.append_assoc]

theorem buildPacket_read_frame_id (h : NetworkFrame) (c d : List Nat) :
    readLE (buildPacket h c d) 0 4 = h.frame_id % 2 ^ 32 := by
  rw [buildPacket_expand, readLE_here]
  norm_num

theorem buildPacket_read_timestamp (h : NetworkFrame) (c d : List Nat) :
    readLE (buildPacket h c d) 8 8 = h.timestamp % 2 ^ 64 := by
  rw [buildPacket_expand,
    readLE_skip _ _ 4 8 8 (by simp [leBytes_length]),
    readLE_skip _ _ 0 8 4 (by simp [leBytes_length]),
    readLE_here]
  norm_num

theorem buildPacket_read_width (h : NetworkFrame) (c d : List Nat) :
    readLE (buildPacket h c d) 16 2 = h.width % 2 ^ 16 := by
  rw [buildPacket_expand,
    readLE_skip _ _ 12 2 16 (by simp [leBytes_length]),
    readLE_skip _ _ 8 2 12 (by simp [leBytes_length]),
    readLE_skip _ _ 0 2 8 (by simp [leBytes_length]),
    readLE_here]
  norm_num

theorem buildPacket_read_height (h : NetworkFrame) (c d : List Nat) :
    readLE (buildPacket h c d) 18 2 = h.height % 2 ^ 16 := by
  rw [buildPacket_expand,
    readLE_skip _ _ 14 2 18 (by simp [leBytes_length]),
    readLE_skip _ _ 10 2 14 (by simp [leBytes_length]),
    readLE_skip _ _ 2 2 10 (by simp [leBytes_length]),
    readLE_skip _ _ 0 2 2 (by simp [leBytes_length]),
    readLE_here]
  norm_num

theorem buildPacket_read_rgb_size (h : NetworkFrame) (c d : List Nat) :
    readLE (buildPacket h c d) 20 4 = h.rgb_size % 2 ^ 32 := by
  rw [buildPacket_expand,
    readLE_skip _ _ 16 4 20 (by simp [leBytes_length]),
    readLE_skip _ _ 12 4 16 (by simp [leBytes_length]),
    readLE_skip _ _ 4 4 12 (by simp [leBytes_length]),
    readLE_skip _ _ 2 4 4 (by simp [leBytes_length]),
    readLE_skip _ _ 0 4 2 (by simp [leBytes_length]),
    readLE_here]
  norm_num

theorem buildPacket_read_depth_size (h : NetworkFrame) (c d : List Nat) :
    readLE (buildPacket h c d) 24 4 = h.depth_size % 2 ^ 32 := by
  rw [buildPacket_expand,
    readLE_skip _ _ 20 4 24 (by simp [leBytes_length]),
    readLE_skip _ _ 16 4 20 (by simp [leBytes_length]),
    readLE_skip _ _ 8 4 16 (by simp [leBytes_length]),
    readLE_skip _ _ 6 4 8 (by simp [leBytes_length]),
    readLE_skip _ _ 4 4 6 (by simp [leBytes_length]),
    readLE_skip _ _ 0 4 4 (by simp [leBytes_length]),
    readLE_here]
  norm_num

theorem buildPacket_drop32 (h : NetworkFrame) (c d : List Nat) :
    (buildPacket h c d).drop 32 = c.take h.rgb_size ++ d.take h.depth_size := by
  unfold buildPacket
  exact List.drop_left' (serializeNetworkFrame_length h)

theorem buildPacket_length (h : NetworkFrame) (c d : List Nat)
    (hc : h.rgb_size = c.length) (hd : h.depth_size = d.length) :
    (buildPacket h c d).length = 32 + c.length + d.length := by
  simp [buildPacket, serializeNetworkFrame_length, hc, hd, List.take_length]
  omega

/-- C2, counterexample: the claim says the wire header occupies exactly
24 bytes and is immediately followed by the color bytes.  On the concrete
frame with header fields (1, 2, 1, 1, 3, 2), color bytes [10, 20, 30] and
depth bytes [40, 50], the struct image `memcpy` puts on the wire is 32
bytes long (alignment padding), not 24, and the 3 bytes at offset 24 are
not the color bytes. -/
theorem C2_counterexample :
    (serializeNetworkFrame ⟨1, 2, 1, 1, 3, 2⟩).length = 32 ∧
    ¬ (serializeNetworkFrame ⟨1, 2, 1, 1, 3, 2⟩).length = 24 ∧
    ¬ (((buildPacket ⟨1, 2, 1, 1, 3, 2⟩ [10, 20, 30] [40, 50]).drop 24).take 3
        = [10, 20, 30]) := by
  decide

/-- C2 (amended): the wire header serialized in front of every
unfragmented packet's payload is the fixed-layout record
(frame_id: u32, timestamp: u64, width: u16, height: u16, rgb_size: u32,
depth_size: u32) occupying exactly 32 bytes — the fields in that order at
offsets 0, 8, 16, 18, 20, 24, with 4 alignment-padding bytes after
frame_id and 4 tail-padding bytes — and it is immediately followed by
rgb_size bytes of color pixels and then depth_size bytes of depth
samples. -/
theorem C2_header_layout (h : NetworkFrame) (c d : List Nat)
    (hc : h.rgb_size = c.length) (hd : h.depth_size = d.length) :
    (serializeNetworkFrame h).length = 32 ∧
    readLE (buildPacket h c d) 0 4 = h.frame_id % 2 ^ 32 ∧
    readLE (buildPacket h c d) 8 8 = h.timestamp % 2 ^ 64 ∧
    readLE (buildPacket h c d) 16 2 = h.width % 2 ^ 16 ∧
    readLE (buildPacket h c d) 18 2 = h.height % 2 ^ 16 ∧
    readLE (buildPacket h c d) 20 4 = h.rgb_size % 2 ^ 32 ∧
    readLE (buildPacket h c d) 24 4 = h.depth_size % 2 ^ 32 ∧
    (buildPacket h c d).drop 32 = c ++ d ∧
    ((buildPacket h c d).drop 32).take c.length = c ∧
    (buildPacket h c d).drop (32 + c.length) = d := by
  have h8 : (buildPacket h c d).drop 32 = c ++ d := by
    rw [buildPacket_drop32, hc, hd, List.take_length, List.take_length]
  refine ⟨serializeNetworkFrame_length h, buildPacket_read_frame_id h c d,
    buildPacket_read_timestamp h c d, buildPacket_read_width h c d,
    buildPacket_read_height h c d, buildPacket_read_rgb_size h c d,
    buildPacket_read_depth_size h c d, h8, ?_, ?_⟩
  · rw [h8, List.take_left]
  · rw [← List.drop_drop, h8, List.drop_left]

/-- C2, witness: the amended layout theorem evaluated on the concrete
frame with header fields (1, 2, 1, 1, 3, 2), color bytes [10, 20, 30] and
depth bytes [40, 50]. -/
theorem C2_header_layout_witness :
    (serializeNetworkFrame ⟨1, 2, 1, 1, 3, 2⟩).length = 32 ∧
    (buildPacket ⟨1, 2, 1, 1, 3, 2⟩ [10, 20, 30] [40, 50]).drop 32 =
      [10, 20, 30] ++ [40, 50] :=
  ⟨(C2_header_layout ⟨1, 2, 1, 1, 3, 2⟩ [10, 20, 30] [40, 50] rfl rfl).1,
    (C2_header_layout ⟨1, 2, 1, 1, 3, 2⟩ [10, 20, 30] [40, 50] rfl
        rfl).2.2.2.2.2.2.2.1⟩

/-- C4, counterexample: the claim demands decode(encode(f)) == f for every
frame pair fitting in one datagram.  On the concrete frame pair with
frame id 1, timestamp 2, resolution 1x1, color bytes [10, 20, 30] and
depth bytes [40, 50] (well under maxPayload), encode emits the single
packet whose header is the 32-byte padded struct image, and the decoder
that follows the spec's 24-byte packed wire format rejects that packet
(its declared-size check fails), so the round trip does not return f. -/
theorem C4_counterexample :
    encode 1 2 ⟨1, 1, [10, 20, 30]⟩ ⟨1, 1, [40, 50]⟩ =
      [buildPacket ⟨1, 2, 1, 1, 3, 2⟩ [10, 20, 30] [40, 50]] ∧
    decodeSpec (buildPacket ⟨1, 2, 1, 1, 3, 2⟩ [10, 20, 30] [40, 50]) =
      none := by
  decide

/-- C4 (amended): for every frame pair whose header+payload size is at
most maxPayload = 65507 and whose metadata fits the header field widths,
encoding yields a single packet, and decoding that packet with the
decoder that reads the sender's actual (32-byte padded) header layout
returns the frame pair back byte-exactly; for the decoder implementing
the spec's packed 24-byte header layout the round trip fails on every
such frame pair: whenever it accepts the packet at all, the payload it
returns is never the original color+depth byte pair (its declared sizes
are read from the wrong offsets, so the slice lengths cannot both
match). -/
theorem C4_roundtrip (fc ts w hg : Nat) (c d : List Nat)
    (h1 : fc < 2 ^ 32) (h2 : ts < 2 ^ 64) (h3 : w < 2 ^ 16)
    (h4 : hg < 2 ^ 16) (h7 : 32 + c.length + d.length ≤ 65507) :
    encode fc ts ⟨w, hg, c⟩ ⟨w, hg, d⟩ =
      [buildPacket ⟨fc, ts, w, hg, c.length, d.length⟩ c d] ∧
    decodeActual (buildPacket ⟨fc, ts, w, hg, c.length, d.length⟩ c d) =
      some ⟨fc, ts, w, hg, c, d⟩ ∧
    (∀ df : DecodedFrame,
      decodeSpec (buildPacket ⟨fc, ts, w, hg, c.length, d.length⟩ c d) =
        some df →
      ¬ (df.rgb = c ∧ df.depth = d)) := by
  have hcl : c.length < 4294967296 := by omega
  have hdl : d.length < 4294967296 := by omega
  norm_num at h1 h2 h3 h4
  have hmk : mkHeader fc ts ⟨w, hg, c⟩ ⟨w, hg, d⟩ =
      ⟨fc, ts, w, hg, c.length, d.length⟩ := by
    simp [mkHeader, Nat.mod_eq_of_lt h1, Nat.mod_eq_of_lt h2,
      Nat.mod_eq_of_lt h3, Nat.mod_eq_of_lt h4, Nat.mod_eq_of_lt hcl,
      Nat.mod_eq_of_lt hdl]
  have hlen : (buildPacket ⟨fc, ts, w, hg, c.length, d.length⟩ c d).length =
      32 + c.length + d.length :=
    buildPacket_length ⟨fc, ts, w, hg, c.length, d.length⟩ c d rfl rfl
  have hd32 : (buildPacket ⟨fc, ts, w, hg, c.length, d.length⟩ c d).drop 32 =
      c ++ d := by
    rw [buildPacket_drop32]
    simp [List.take_length]
  have hdd : (buildPacket ⟨fc, ts, w, hg, c.length, d.length⟩ c
      d).drop (32 + c.length) = d := by
    rw [← List.drop_drop, hd32, List.drop_left]
  have hcond : ¬ (32 + c.length + d.length > 65507) := by omega
  refine ⟨?_, ?_, ?_⟩
  · simp [encode, hmk, hcond]
  · have hF : ¬ ((32 + c.length + d.length) < 32) := by omega
    simp [decodeActual, hlen, buildPacket_read_rgb_size,
      buildPacket_read_depth_size, buildPacket_read_frame_id,
      buildPacket_read_timestamp, buildPacket_read_width,
      buildPacket_read_height, hd32, hdd, hF,
      Nat.mod_eq_of_lt h1, Nat.mod_eq_of_lt h2, Nat.mod_eq_of_lt h3,
      Nat.mod_eq_of_lt h4, Nat.mod_eq_of_lt hcl, Nat.mod_eq_of_lt hdl,
      List.take_left, Nat.add_assoc]
  · intro df hdf hcd
    obtain ⟨hrgb, hdep⟩ := hcd
    simp only [decodeSpec] at hdf
    split_ifs at hdf with hc1 hc2
    have hdf' := Option.some.inj hdf
    have hr : df.rgb =
        ((buildPacket ⟨fc, ts, w, hg, c.length, d.length⟩ c d).drop
          24).take (readLE (buildPacket
          ⟨fc, ts, w, hg, c.length, d.length⟩ c d) 16 4) := by
      rw [← hdf']
    have hp : df.depth =
        (buildPacket ⟨fc, ts, w, hg, c.length, d.length⟩ c d).drop
          (24 + readLE (buildPacket
            ⟨fc, ts, w, hg, c.length, d.length⟩ c d) 16 4) := by
      rw [← hdf']
    have e1 : (df.rgb).length = c.length := by rw [hrgb]
    have e2 : (df.depth).length = d.length := by rw [hdep]
    rw [hr, List.length_take, List.length_drop, hlen] at e1
    rw [hp, List.length_drop, hlen] at e2
    rw [hlen] at hc2
    omega

/-- C4, witness: the amended round-trip theorem evaluated on the concrete
frame pair with frame id 1, timestamp 2, resolution 1x1, color bytes
[10, 20, 30] and depth bytes [40, 50]. -/
theorem C4_roundtrip_witness :
    decodeActual (buildPacket ⟨1, 2, 1, 1, 3, 2⟩ [10, 20, 30] [40, 50]) =
      some ⟨1, 2, 1, 1, [10, 20, 30], [40, 50]⟩ :=
  (C4_roundtrip 1 2 1 1 [10, 20, 30] [40, 50] (by norm_num) (by norm_num)
      (by norm_num) (by norm_num) (by norm_num)).2.1

theorem step_oversize (s : StreamState) (c d : VideoFrame) (ts now : Nat)
    (ok : Bool)
    (hcond : 32 + (mkHeader s.frame_count ts c d).rgb_size +
      (mkHeader s.frame_count ts c d).depth_size > 65507) :
    step s ⟨⟨some c, some d⟩, ts, now, ok⟩ =
      ({ s with frame_count := s.frame_count + 1 },
        [Event.packetBuilt (mkHeader s.frame_count ts c d)
          (buildPacket (mkHeader s.frame_count ts c d) c.data d.data),
          Event.oversizeWarning]) := by
  simp only [step]
  rw [if_pos hcond]

theorem step_inlimit (s : StreamState) (c d : VideoFrame) (ts now : Nat)
    (ok : Bool)
    (hcond : ¬ (32 + (mkHeader s.frame_count ts c d).rgb_size +
      (mkHeader s.frame_count ts c d).depth_size > 65507)) :
    step s ⟨⟨some c, some d⟩, ts, now, ok⟩ =
      (let h := mkHeader s.frame_count ts c d
       let p := buildPacket h c.data d.data
       let total := 32 + h.rgb_size + h.depth_size
       let sendEvs :=
         Event.sendAttempt p ok :: (if ok then [] else [Event.sendDiag])
       if (now - s.last_fps_time) / 1000 ≥ 1 then
         (⟨s.frame_count + 1, 0, now⟩,
           Event.packetBuilt h p ::
             (sendEvs ++ [Event.fpsReport (s.fps_counter + 1) (total / 1024)]))
       else
         (⟨s.frame_count + 1, s.fps_counter + 1, s.last_fps_time⟩,
           Event.packetBuilt h p :: sendEvs)) := by
  simp only [step]
  rw [if_neg hcond]

/-- The 424x240 RGB8 color frame of the streamer's configured mode:
424 * 240 * 3 = 305280 data bytes. -/
def frame424color : VideoFrame :=
  ⟨424, 240, List.replicate 305280 0⟩

/-- The 424x240 Z16 depth frame of the streamer's configured mode:
424 * 240 * 2 = 203520 data bytes. -/
def frame424depth : VideoFrame :=
  ⟨424, 240, List.replicate 203520 0⟩

theorem frame424color_len : frame424color.data.length = 305280 := by
  unfold frame424color
  exact List.length_replicate 305280 0

theorem frame424depth_len : frame424depth.data.length = 203520 := by
  unfold frame424depth
  exact List.length_replicate 203520 0

theorem step_oversize_of_len (s : StreamState) (c d : VideoFrame)
    (ts now : Nat) (ok : Bool) (lc ld : Nat)
    (hlc : c.data.length = lc) (hld : d.data.length = ld)
    (hbig : 65507 < 32 + lc % 2 ^ 32 + ld % 2 ^ 32) :
    sendAttemptsOf (step s ⟨⟨some c, some d⟩, ts, now, ok⟩).2 = [] ∧
    Event.oversizeWarning ∈ (step s ⟨⟨some c, some d⟩, ts, now, ok⟩).2 ∧
    encode s.frame_count ts c d = [] := by
  have hcond : 32 + (mkHeader s.frame_count ts c d).rgb_size +
      (mkHeader s.frame_count ts c d).depth_size > 65507 := by
    simp only [mkHeader]
    rw [hlc, hld]
    exact hbig
  rw [step_oversize s c d ts now ok hcond]
  refine ⟨rfl, List.mem_cons_of_mem _ (List.mem_cons_self _ _), ?_⟩
  simp only [encode]
  rw [if_pos hcond]

/-- C1, counterexample: for the 424x240 session frame (total 32 + 305280 +
203520 = 508832 bytes, over the 65507-byte limit) the claim demands at
least 8 fragments; the code instead emits no datagram at all — `encode`
returns the empty packet list, the loop iteration hands nothing to
`sendto` and only prints the oversize warning — so it does not produce 8
(or any) fragments. -/
theorem C1_counterexample :
    encode 0 1000 frame424color frame424depth = [] ∧
    sendAttemptsOf (step (initState 0)
      ⟨⟨some frame424color, some frame424depth⟩, 1000, 0, true⟩).2 = [] ∧
    Event.oversizeWarning ∈ (step (initState 0)
      ⟨⟨some frame424color, some frame424depth⟩, 1000, 0, true⟩).2 ∧
    ¬ (8 ≤ (sendAttemptsOf (step (initState 0)
      ⟨⟨some frame424color, some frame424depth⟩, 1000, 0, true⟩).2).length) := by
  obtain ⟨h1, h2, h3⟩ := step_oversize_of_len (initState 0) frame424color
    frame424depth 1000 0 true 305280 203520 frame424color_len
    frame424depth_len (by decide)
  refine ⟨h3, h1, h2, ?_⟩
  rw [h1]
  decide

/-- C1 (amended): for every frame pair, the loop emits a single packet
(the full header+payload byte stream, never truncated) when
header_size + rgb_size + depth_size is at most maxPayload = 65507, and
otherwise emits no datagram at all: the frame is dropped whole after an
explicit oversize warning.  There is no fragmentation. -/
theorem C1_single_or_drop (s : StreamState) (c d : VideoFrame)
    (ts now : Nat) (ok : Bool)
    (hcb : c.data.length < 4294967296) (hdb : d.data.length < 4294967296) :
    (32 + c.data.length + d.data.length ≤ 65507 →
      encode s.frame_count ts c d =
        [buildPacket (mkHeader s.frame_count ts c d) c.data d.data] ∧
      sendAttemptsOf (step s ⟨⟨some c, some d⟩, ts, now, ok⟩).2 =
        [buildPacket (mkHeader s.frame_count ts c d) c.data d.data] ∧
      (∀ p ∈ sendAttemptsOf (step s ⟨⟨some c, some d⟩, ts, now, ok⟩).2,
        p.length = 32 + c.data.length + d.data.length)) ∧
    (65507 < 32 + c.data.length + d.data.length →
      encode s.frame_count ts c d = [] ∧
      sendAttemptsOf (step s ⟨⟨some c, some d⟩, ts, now, ok⟩).2 = [] ∧
      Event.oversizeWarning ∈ (step s ⟨⟨some c, some d⟩, ts, now, ok⟩).2) := by
  have mc : (mkHeader s.frame_count ts c d).rgb_size = c.data.length := by
    simp [mkHeader, Nat.mod_eq_of_lt hcb]
  have md : (mkHeader s.frame_count ts c d).depth_size = d.data.length := by
    simp [mkHeader, Nat.mod_eq_of_lt hdb]
  constructor
  · intro hsz
    have hcond : ¬ (32 + (mkHeader s.frame_count ts c d).rgb_size +
        (mkHeader s.frame_count ts c d).depth_size > 65507) := by
      rw [mc, md]; omega
    have hsa : sendAttemptsOf (step s ⟨⟨some c, some d⟩, ts, now, ok⟩).2 =
        [buildPacket (mkHeader s.frame_count ts c d) c.data d.data] := by
      simp only [step]
      rw [if_neg hcond]
      cases ok <;> split_ifs <;> simp [sendAttemptsOf]
    refine ⟨?_, hsa, ?_⟩
    · simp only [encode]
      rw [if_neg hcond]
    · intro p hp
      rw [hsa, List.mem_singleton] at hp
      rw [hp, buildPacket_length _ _ _ mc md]
  · intro hsz
    have hcond : 32 + (mkHeader s.frame_count ts c d).rgb_size +
        (mkHeader s.frame_count ts c d).depth_size > 65507 := by
      rw [mc, md]; omega
    refine ⟨?_, ?_, ?_⟩
    · simp only [encode]
      rw [if_pos hcond]
    · simp only [step]
      rw [if_pos hcond]
      simp [sendAttemptsOf]
    · simp only [step]
      rw [if_pos hcond]
      simp

/-- C1, witness: the amended theorem evaluated on a small in-limit frame
pair (frame id 0, timestamp 5, 1x1 frames with 3 color and 2 depth
bytes). -/
theorem C1_single_or_drop_witness :
    encode 0 5 ⟨1, 1, [10, 20, 30]⟩ ⟨1, 1, [40, 50]⟩ =
      [buildPacket (mkHeader 0 5 ⟨1, 1, [10, 20, 30]⟩ ⟨1, 1, [40, 50]⟩)
        [10, 20, 30] [40, 50]] :=
  ((C1_single_or_drop (initState 0) ⟨1, 1, [10, 20, 30]⟩ ⟨1, 1, [40, 50]⟩
      5 7 true (by norm_num) (by norm_num)).1 (by norm_num)).1

/-- C3: the claim says the streaming process exits nonzero on an
unrecoverable device error.  In the code, an `rs2::error` thrown while
streaming is caught, a diagnostic is printed, and `main` falls through to
`return 0`: the process exits 0 after a fatal device error (the sibling
program 10s-save.cpp returns EXIT_FAILURE on the same error, so the zero
exit is a slip).  Nonzero exits occur only for a wrong argument count or
a failed socket creation. -/
theorem C3_exit_code :
    rpiStreamerExitCode true true TermCause.deviceError = 0 ∧
    rpiStreamerExitCode false true TermCause.deviceError = -1 ∧
    rpiStreamerExitCode true false TermCause.deviceError = -1 := by
  decide

/-- C7: in both the streaming program and the persistence program the
stabilization phase discards exactly the first 30 framesets
(`stabilizationFrames = 30`) before the processing loop sees any frame:
the session is the loop run on the input stream with its 30-element
prefix removed, the discarded prefix has length `min 30 n`, and the k-th
frameset the loop processes is the (30+k)-th frameset delivered by the
camera, so the first surfaced frame comes strictly after every discarded
one. -/
theorem C7_stabilization_discards_thirty (t0 : Nat)
    (inputs : List IterInput)
    (sinputs : List (Nat × List SavedStreamFrame)) :
    rpiStreamerSession t0 inputs =
      runStream (initState t0) (inputs.drop stabilizationFrames) ∧
    saveSession sinputs = saveRun 0 (sinputs.drop stabilizationFrames) ∧
    (inputs.take stabilizationFrames).length =
      min stabilizationFrames inputs.length ∧
    (∀ k, (inputs.drop stabilizationFrames)[k]? =
      inputs[stabilizationFrames + k]?) ∧
    (∀ k, (sinputs.drop stabilizationFrames)[k]? =
      sinputs[stabilizationFrames + k]?) := by
  refine ⟨rfl, rfl, List.length_take _ _, ?_, ?_⟩
  · intro k
    exact List.getElem?_drop inputs stabilizationFrames k
  · intro k
    exact List.getElem?_drop sinputs stabilizationFrames k

theorem natDigits_length_le (k : Nat) :
    ∀ n : Nat, n < 10 ^ (k + 1) → (natDigits n).length ≤ k + 1 := by
  induction k with
  | zero =>
    intro n hn
    rw [natDigits]
    have h10 : n < 10 := by norm_num at hn; omega
    simp [h10]
  | succ k ih =>
    intro n hn
    rw [natDigits]
    split_ifs with h10
    · simp
    · have hdiv : n / 10 < 10 ^ (k + 1) := by
        rw [Nat.div_lt_iff_lt_mul (by norm_num)]
        calc n < 10 ^ (k + 2) := hn
          _ = 10 ^ (k + 1) * 10 := by ring
      have := ih (n / 10) hdiv
      simp only [List.length_append, List.length_cons, List.length_nil]
      omega

theorem pad6_length_of_lt (n : Nat) (h : n < 1000000) :
    (pad6 n).length = 6 := by
  have h6 : (natDigits n).length ≤ 6 := by
    have := natDigits_length_le 5 n (by norm_num; omega)
    omega
  simp only [pad6, String.length, List.length_append, List.length_replicate]
  omega

theorem mem_filesForIteration (fc ts : Nat) (fs : List SavedStreamFrame)
    (name : String) (h : name ∈ filesForIteration fc ts fs) :
    ∃ dir stream ext, name = create_filename dir stream fc ts ext := by
  simp only [filesForIteration, List.mem_flatMap] at h
  obtain ⟨f, _, hmem⟩ := h
  rcases f with ⟨iv, kind⟩
  cases iv with
  | false => simp [filesForFrame] at hmem
  | true =>
    cases kind with
    | color =>
      simp only [filesForFrame, if_true] at hmem
      rcases List.mem_cons.mp hmem with h1 | h1
      · exact ⟨_, _, _, h1⟩
      · exact ⟨_, _, _, List.mem_singleton.mp h1⟩
    | depth =>
      simp only [filesForFrame, if_true] at hmem
      rcases List.mem_cons.mp hmem with h1 | h1
      · exact ⟨_, _, _, h1⟩
      · rcases List.mem_cons.mp h1 with h2 | h2
        · exact ⟨_, _, _, h2⟩
        · exact ⟨_, _, _, List.mem_singleton.mp h2⟩
    | other => simp [filesForFrame] at hmem

theorem saveRun_getElem (fc : Nat)
    (inputs : List (Nat × List SavedStreamFrame)) (k : Nat) :
    (saveRun fc inputs)[k]? =
      (inputs[k]?).map (fun p => filesForIteration (fc + k + 1) p.1 p.2) := by
  induction inputs generalizing fc k with
  | nil => simp [saveRun]
  | cons p rest ih =>
    rcases p with ⟨ts, fs⟩
    cases k with
    | zero => simp [saveRun]
    | succ k =>
      have e : fc + 1 + k + 1 = fc + (k + 1) + 1 := by omega
      have := ih (fc + 1) k
      rw [e] at this
      simpa [saveRun] using this

/-- C9: in persistence mode, every file saved for one captured frameset —
the color PNG, color metadata CSV, depth PNG, colorized-depth PNG and
depth metadata CSV — is named by `create_filename` with the one frame
number and the one timestamp fixed for that loop iteration before any
file is written (so all carry the same zero-padded 6-digit frame number
and the same epoch-millisecond timestamp), the frame number of iteration
k of the capture loop is exactly `initial + k + 1` (it increases by 1 per
frameset), and for frame numbers below 10^6 the padded field is exactly 6
characters. -/
theorem C9_same_number_and_timestamp (fc ts : Nat)
    (inputs : List (Nat × List SavedStreamFrame))
    (fs : List SavedStreamFrame) :
    (∀ name ∈ filesForIteration fc ts fs,
      ∃ dir stream ext, name = create_filename dir stream fc ts ext) ∧
    (∀ k, (saveRun fc inputs)[k]? =
      (inputs[k]?).map (fun p => filesForIteration (fc + k + 1) p.1 p.2)) ∧
    (fc < 1000000 → (pad6 fc).length = 6) := by
  refine ⟨?_, ?_, pad6_length_of_lt fc⟩
  · intro name h
    exact mem_filesForIteration fc ts fs name h
  · intro k
    exact saveRun_getElem fc inputs k

/-- C9, witness: the theorem evaluated at frame number 7, timestamp 123,
a frameset with one color and one depth video frame, discharging the
frame-number bound. -/
theorem C9_same_number_and_timestamp_witness :
    (pad6 7).length = 6 :=
  (C9_same_number_and_timestamp 7 123 [] [⟨true, StreamKind.color⟩,
    ⟨true, StreamKind.depth⟩]).2.2 (by norm_num)

/-- A frameset is complete when both the color and the depth frame are
present — the condition line 80 of rpi_streamer.cpp requires before the
iteration proceeds. -/
def isComplete (i : IterInput) : Bool :=
  i.frameset.color.isSome && i.frameset.depth.isSome

/-- The complete framesets of an input stream, in order. -/
def completeInputs (inputs : List IterInput) : List IterInput :=
  inputs.filter isComplete

/-- The headers the loop builds along an input stream, starting from
frame counter `fc`: one header per complete frameset, the counter
advancing only on complete framesets. -/
def headerTrace (fc : Nat) : List IterInput → List NetworkFrame
  | [] => []
  | i :: rest =>
    match i.frameset.color, i.frameset.depth with
    | some c, some d => mkHeader fc i.ts c d :: headerTrace (fc + 1) rest
    | _, _ => headerTrace fc rest

theorem runStream_cons (s : StreamState) (i : IterInput)
    (rest : List IterInput) :
    runStream s (i :: rest) =
      ((runStream (step s i).1 rest).1,
        (step s i).2 ++ (runStream (step s i).1 rest).2) := rfl

theorem step_no_color (s : StreamState) (od : Option VideoFrame)
    (ts now : Nat) (ok : Bool) :
    step s ⟨⟨none, od⟩, ts, now, ok⟩ = (s, []) := rfl

theorem step_no_depth (s : StreamState) (c : VideoFrame)
    (ts now : Nat) (ok : Bool) :
    step s ⟨⟨some c, none⟩, ts, now, ok⟩ = (s, []) := rfl

theorem step_complete_headers (s : StreamState) (c d : VideoFrame)
    (ts now : Nat) (ok : Bool) :
    builtHeaders (step s ⟨⟨some c, some d⟩, ts, now, ok⟩).2 =
      [mkHeader s.frame_count ts c d] ∧
    (step s ⟨⟨some c, some d⟩, ts, now, ok⟩).1.frame_count =
      s.frame_count + 1 := by
  by_cases hcond : 32 + (mkHeader s.frame_count ts c d).rgb_size +
      (mkHeader s.frame_count ts c d).depth_size > 65507
  · rw [step_oversize s c d ts now ok hcond]
    exact ⟨rfl, rfl⟩
  · rw [step_inlimit s c d ts now ok hcond]
    by_cases hfps : (now - s.last_fps_time) / 1000 ≥ 1
    · rw [if_pos hfps]
      cases ok <;> exact ⟨rfl, rfl⟩
    · rw [if_neg hfps]
      cases ok <;> exact ⟨rfl, rfl⟩

theorem builtHeaders_runStream (inputs : List IterInput) :
    ∀ s : StreamState,
      builtHeaders (runStream s inputs).2 = headerTrace s.frame_count inputs ∧
      (runStream s inputs).1.frame_count =
        s.frame_count + (completeInputs inputs).length := by
  induction inputs with
  | nil =>
    intro s
    exact ⟨rfl, rfl⟩
  | cons i rest ih =>
    intro s
    obtain ⟨⟨oc, od⟩, ts, now, ok⟩ := i
    rw [runStream_cons]
    cases oc with
    | none =>
      rw [step_no_color]
      refine ⟨?_, ?_⟩
      · have := (ih s).1
        simpa [headerTrace] using this
      · have := (ih s).2
        simpa [completeInputs, isComplete] using this
    | some c =>
      cases od with
      | none =>
        rw [step_no_depth]
        refine ⟨?_, ?_⟩
        · have := (ih s).1
          simpa [headerTrace] using this
        · have := (ih s).2
          simpa [completeInputs, isComplete] using this
      | some d =>
        obtain ⟨hh, hfc⟩ := step_complete_headers s c d ts now ok
        refine ⟨?_, ?_⟩
        · rw [builtHeaders, List.filterMap_append]
          rw [builtHeaders] at hh
          rw [hh]
          have := (ih (step s ⟨⟨some c, some d⟩, ts, now, ok⟩).1).1
          rw [builtHeaders] at this
          rw [this, hfc]
          rfl
        · have := (ih (step s ⟨⟨some c, some d⟩, ts, now, ok⟩).1).2
          rw [this, hfc]
          have hci : completeInputs (⟨⟨some c, some d⟩, ts, now, ok⟩ :: rest) =
              ⟨⟨some c, some d⟩, ts, now, ok⟩ :: completeInputs rest := by
            simp [completeInputs, isComplete]
          rw [hci]
          simp [List.length_cons]
          omega

theorem headerTrace_completeInputs (l : List IterInput) :
    ∀ fc, headerTrace fc l = headerTrace fc (completeInputs l) := by
  induction l with
  | nil => intro fc; rfl
  | cons i rest ih =>
    intro fc
    obtain ⟨⟨oc, od⟩, ts, now, ok⟩ := i
    cases oc with
    | none => simpa [headerTrace, completeInputs, isComplete] using ih fc
    | some c =>
      cases od with
      | none => simpa [headerTrace, completeInputs, isComplete] using ih fc
      | some d =>
        simpa [headerTrace, completeInputs, isComplete] using ih (fc + 1)

theorem headerTrace_map_frame_id (l : List IterInput) :
    ∀ fc, (headerTrace fc l).map NetworkFrame.frame_id =
      (List.range' fc (completeInputs l).length).map (fun x => x % 2 ^ 32) := by
  induction l with
  | nil => intro fc; rfl
  | cons i rest ih =>
    intro fc
    obtain ⟨⟨oc, od⟩, ts, now, ok⟩ := i
    cases oc with
    | none => simpa [headerTrace, completeInputs, isComplete] using ih fc
    | some c =>
      cases od with
      | none => simpa [headerTrace, completeInputs, isComplete] using ih fc
      | some d =>
        have hci : completeInputs (⟨⟨some c, some d⟩, ts, now, ok⟩ :: rest) =
            ⟨⟨some c, some d⟩, ts, now, ok⟩ :: completeInputs rest := by
          simp [completeInputs, isComplete]
        rw [hci]
        simp only [headerTrace, List.length_cons, List.range'_succ,
          List.map_cons]
        rw [ih (fc + 1)]
        rfl

/-- C10: in the streaming loop a frameset lacking the color or the depth
frame is skipped before the frame counter is read or incremented: the
final counter is the initial counter plus exactly the number of complete
framesets, the headers ever built are precisely those of the complete
framesets (in order, with the counter advancing only on them), and the
frame_id fields written into packet headers are the consecutive counter
values (reduced into the 32-bit field), one per complete color+depth
pair — no frame_id is consumed by a skipped frameset. -/
theorem C10_skipped_framesets_consume_no_id (s : StreamState)
    (inputs : List IterInput) :
    (runStream s inputs).1.frame_count =
      s.frame_count + (completeInputs inputs).length ∧
    builtHeaders (runStream s inputs).2 =
      headerTrace s.frame_count (completeInputs inputs) ∧
    (builtHeaders (runStream s inputs).2).map NetworkFrame.frame_id =
      (List.range' s.frame_count (completeInputs inputs).length).map
        (fun x => x % 2 ^ 32) := by
  obtain ⟨h1, h2⟩ := builtHeaders_runStream inputs s
  refine ⟨h2, ?_, ?_⟩
  · rw [h1]
    exact headerTrace_completeInputs inputs s.frame_count
  · rw [h1]
    exact headerTrace_map_frame_id inputs s.frame_count

/-- C6: when the OS refuses the datagram (`sendto` returns a negative
value) the failure is non-fatal: a diagnostic (`perror`) is surfaced,
`sendto` was invoked exactly once for the packet (no retry, so the caller
is never blocked waiting), the loop state after the iteration is
identical to the state after a successful send, and the run simply
continues with the next frame. -/
theorem C6_send_failure_nonfatal (s : StreamState) (c d : VideoFrame)
    (ts now : Nat) (rest : List IterInput)
    (hcb : c.data.length < 4294967296) (hdb : d.data.length < 4294967296)
    (hsz : 32 + c.data.length + d.data.length ≤ 65507) :
    Event.sendDiag ∈ (step s ⟨⟨some c, some d⟩, ts, now, false⟩).2 ∧
    (sendAttemptsOf (step s ⟨⟨some c, some d⟩, ts, now, false⟩).2).length =
      1 ∧
    (step s ⟨⟨some c, some d⟩, ts, now, false⟩).1 =
      (step s ⟨⟨some c, some d⟩, ts, now, true⟩).1 ∧
    runStream s (⟨⟨some c, some d⟩, ts, now, false⟩ :: rest) =
      ((runStream (step s ⟨⟨some c, some d⟩, ts, now, false⟩).1 rest).1,
        (step s ⟨⟨some c, some d⟩, ts, now, false⟩).2 ++
          (runStream (step s ⟨⟨some c, some d⟩, ts, now, false⟩).1
            rest).2) := by
  have mc : (mkHeader s.frame_count ts c d).rgb_size = c.data.length := by
    simp [mkHeader, Nat.mod_eq_of_lt hcb]
  have md : (mkHeader s.frame_count ts c d).depth_size = d.data.length := by
    simp [mkHeader, Nat.mod_eq_of_lt hdb]
  have hcond : ¬ (32 + (mkHeader s.frame_count ts c d).rgb_size +
      (mkHeader s.frame_count ts c d).depth_size > 65507) := by
    rw [mc, md]; omega
  refine ⟨?_, ?_, ?_, runStream_cons s _ rest⟩
  · rw [step_inlimit s c d ts now false hcond]
    by_cases hfps : (now - s.last_fps_time) / 1000 ≥ 1
    · rw [if_pos hfps]; simp
    · rw [if_neg hfps]; simp
  · rw [step_inlimit s c d ts now false hcond]
    by_cases hfps : (now - s.last_fps_time) / 1000 ≥ 1
    · rw [if_pos hfps]; rfl
    · rw [if_neg hfps]; rfl
  · rw [step_inlimit s c d ts now false hcond,
      step_inlimit s c d ts now true hcond]
    by_cases hfps : (now - s.last_fps_time) / 1000 ≥ 1
    · rw [if_pos hfps, if_pos hfps]
    · rw [if_neg hfps, if_neg hfps]

/-- C6, witness: the theorem evaluated on a failing send of a small
in-limit frame. -/
theorem C6_send_failure_nonfatal_witness :
    Event.sendDiag ∈ (step (initState 0)
      ⟨⟨some ⟨1, 1, [10, 20, 30]⟩, some ⟨1, 1, [40, 50]⟩⟩, 5, 7,
        false⟩).2 :=
  (C6_send_failure_nonfatal (initState 0) ⟨1, 1, [10, 20, 30]⟩
    ⟨1, 1, [40, 50]⟩ 5 7 [] (by norm_num) (by norm_num) (by norm_num)).1

/-- A 30-iteration input stream spreading 30 complete framesets (1x1
frames, 1 color byte, 2 depth bytes, 35-byte packets) uniformly across
exactly one second of the monitoring clock: iteration k happens at
33*(k+1) ms, the last at exactly 1000 ms. -/
def c8frameset : Frameset := ⟨some ⟨1, 1, [7]⟩, some ⟨1, 1, [9, 9]⟩⟩

def c8input (k : Nat) : IterInput :=
  ⟨c8frameset, k, if k = 29 then 1000 else 33 * (k + 1), true⟩

def c8inputs : List IterInput := (List.range 30).map c8input

/-- C8, counterexample: the claim says the monitor's report includes both
frames_per_second and bytes_per_second.  Fed 30 `record` events uniformly
spread across exactly one second, each for a 35-byte packet, the window's
bytes-per-second figure would be 1050; the code's single report for that
second is (30, 0) — the packet count and the last frame's size divided by
1024 (35/1024 = 0 KB) — so the second reported quantity is not
bytes_per_second. -/
theorem C8_counterexample :
    fpsReports (runStream (initState 0) c8inputs).2 = [(30, 0)] ∧
    ((sendAttemptsOf (runStream (initState 0) c8inputs).2).map
      List.length).sum = 1050 ∧
    ¬ ((30, 0).2 = ((sendAttemptsOf (runStream (initState 0)
      c8inputs).2).map List.length).sum) := by
  decide

/-- C8 (amended): the rate monitor counts packets since the last report;
on the first monitored iteration at which at least one full second has
elapsed since the last report it emits exactly one report — the packet
count of that window together with the current frame's total size in
kilobytes (total/1024), not bytes_per_second — and resets the counter and
the window start, without otherwise altering the loop; on iterations
before the second has elapsed it emits nothing and just increments the
counter.  Fed 30 record events uniformly spread across exactly one
second it reports frames_per_second exactly 30. -/
theorem C8_rate_monitor (s : StreamState) (c d : VideoFrame)
    (ts now : Nat) (ok : Bool)
    (hcb : c.data.length < 4294967296) (hdb : d.data.length < 4294967296)
    (hsz : 32 + c.data.length + d.data.length ≤ 65507) :
    ((now - s.last_fps_time) / 1000 ≥ 1 →
      fpsReports (step s ⟨⟨some c, some d⟩, ts, now, ok⟩).2 =
        [(s.fps_counter + 1, (32 + c.data.length + d.data.length) / 1024)] ∧
      (step s ⟨⟨some c, some d⟩, ts, now, ok⟩).1.fps_counter = 0 ∧
      (step s ⟨⟨some c, some d⟩, ts, now, ok⟩).1.last_fps_time = now) ∧
    (¬ ((now - s.last_fps_time) / 1000 ≥ 1) →
      fpsReports (step s ⟨⟨some c, some d⟩, ts, now, ok⟩).2 = [] ∧
      (step s ⟨⟨some c, some d⟩, ts, now, ok⟩).1.fps_counter =
        s.fps_counter + 1 ∧
      (step s ⟨⟨some c, some d⟩, ts, now, ok⟩).1.last_fps_time =
        s.last_fps_time) ∧
    fpsReports (runStream (initState 0) c8inputs).2 = [(30, 0)] := by
  have hcond : ¬ (32 + (mkHeader s.frame_count ts c d).rgb_size +
      (mkHeader s.frame_count ts c d).depth_size > 65507) := by
    simp [mkHeader, Nat.mod_eq_of_lt hcb, Nat.mod_eq_of_lt hdb]
    omega
  refine ⟨?_, ?_, by decide⟩
  · intro hfps
    rw [step_inlimit s c d ts now ok hcond, if_pos hfps]
    refine ⟨?_, rfl, rfl⟩
    cases ok <;>
      simp [fpsReports, mkHeader, Nat.mod_eq_of_lt hcb,
        Nat.mod_eq_of_lt hdb]
  · intro hfps
    rw [step_inlimit s c d ts now ok hcond, if_neg hfps]
    refine ⟨?_, rfl, rfl⟩
    cases ok <;> simp [fpsReports]

/-- C8, witness: the amended theorem evaluated on a report-triggering
iteration (window start 0, current monitor clock 2000 ms, first packet of
the window, 35-byte frame). -/
theorem C8_rate_monitor_witness :
    fpsReports (step (initState 0)
      ⟨⟨some ⟨1, 1, [7]⟩, some ⟨1, 1, [9, 9]⟩⟩, 3, 2000, true⟩).2 =
      [(1, 0)] :=
  ((C8_rate_monitor (initState 0) ⟨1, 1, [7]⟩ ⟨1, 1, [9, 9]⟩ 3 2000 true
    (by norm_num) (by norm_num) (by norm_num)).1 (by decide)).1

theorem headerTrace_chain (l : List IterInput) :
    ∀ fc, l.Pairwise (fun a b => a.ts < b.ts) →
      (∀ i ∈ l, i.ts < 2 ^ 64) →
      (headerTrace fc l).Chain' (fun h1 h2 =>
        h2.frame_id = (h1.frame_id + 1) % 2 ^ 32 ∧
        h1.timestamp < h2.timestamp) ∧
      (∀ h, (headerTrace fc l).head? = some h →
        ∃ i, i ∈ l ∧ h.timestamp = i.ts % 2 ^ 64 ∧
          h.frame_id = fc % 2 ^ 32) := by
  induction l with
  | nil =>
    intro fc _ _
    refine ⟨List.chain'_nil, ?_⟩
    intro h hh
    simp [headerTrace] at hh
  | cons i rest ih =>
    intro fc hpw hbd
    obtain ⟨⟨oc, od⟩, ts, now, ok⟩ := i
    have hpw' := hpw.of_cons
    have hbd' : ∀ j ∈ rest, j.ts < 2 ^ 64 := fun j hj =>
      hbd j (List.mem_cons_of_mem _ hj)
    cases oc with
    | none =>
      have hht : headerTrace fc (⟨⟨none, od⟩, ts, now, ok⟩ :: rest) =
          headerTrace fc rest := rfl
      rw [hht]
      obtain ⟨hc, hh⟩ := ih fc hpw' hbd'
      exact ⟨hc, fun h hhd => (hh h hhd).imp
        (fun j hj => ⟨List.mem_cons_of_mem _ hj.1, hj.2⟩)⟩
    | some c =>
      cases od with
      | none =>
        have hht : headerTrace fc (⟨⟨some c, none⟩, ts, now, ok⟩ :: rest) =
            headerTrace fc rest := rfl
        rw [hht]
        obtain ⟨hc, hh⟩ := ih fc hpw' hbd'
        exact ⟨hc, fun h hhd => (hh h hhd).imp
          (fun j hj => ⟨List.mem_cons_of_mem _ hj.1, hj.2⟩)⟩
      | some d =>
        have hht : headerTrace fc
            (⟨⟨some c, some d⟩, ts, now, ok⟩ :: rest) =
            mkHeader fc ts c d :: headerTrace (fc + 1) rest := rfl
        rw [hht]
        obtain ⟨hc, hh⟩ := ih (fc + 1) hpw' hbd'
        constructor
        · rw [List.chain'_cons']
          refine ⟨?_, hc⟩
          intro y hy
          obtain ⟨j, hjmem, hjts, hjid⟩ := hh y hy
          have hmkid : (mkHeader fc ts c d).frame_id = fc % 2 ^ 32 := rfl
          have hmkts : (mkHeader fc ts c d).timestamp = ts % 2 ^ 64 := rfl
          constructor
          · rw [hjid, hmkid, Nat.mod_add_mod]
          · rw [hmkts, hjts]
            have h1 : ts < 2 ^ 64 := hbd _ (List.mem_cons_self _ _)
            have h2 : j.ts < 2 ^ 64 := hbd' j hjmem
            rw [Nat.mod_eq_of_lt h1, Nat.mod_eq_of_lt h2]
            exact List.rel_of_pairwise_cons hpw hjmem
        · intro h hhd
          rw [List.head?_cons, Option.some_inj] at hhd
          refine ⟨⟨⟨some c, some d⟩, ts, now, ok⟩,
            List.mem_cons_self _ _, ?_, ?_⟩
          · rw [← hhd]
            rfl
          · rw [← hhd]
            rfl

/-- C5 (amended): across every pair of consecutive headers built for
successful (complete) frame acquisitions, the frame_id increases by
exactly 1 modulo 2^32 (the 32-bit counter wraps after 4294967296 frames)
and, provided the sampled clock values are strictly increasing and fit
the 64-bit field as the platform clock does, the timestamp strictly
increases. -/
theorem C5_frame_ids_and_timestamps (t0 : Nat) (inputs : List IterInput)
    (hts : inputs.Pairwise (fun a b => a.ts < b.ts))
    (hbound : ∀ i ∈ inputs, i.ts < 2 ^ 64) :
    (builtHeaders (runStream (initState t0) inputs).2).Chain'
      (fun h1 h2 => h2.frame_id = (h1.frame_id + 1) % 2 ^ 32 ∧
        h1.timestamp < h2.timestamp) := by
  rw [(builtHeaders_runStream inputs (initState t0)).1]
  exact (headerTrace_chain inputs (initState t0).frame_count hts hbound).1

/-- C5, witness: the amended theorem evaluated on a two-frameset session
with clock samples 5 then 9. -/
theorem C5_frame_ids_and_timestamps_witness :
    (builtHeaders (runStream (initState 0)
      [⟨⟨some ⟨1, 1, [7]⟩, some ⟨1, 1, [9, 9]⟩⟩, 5, 40, true⟩,
        ⟨⟨some ⟨1, 1, [7]⟩, some ⟨1, 1, [9, 9]⟩⟩, 9, 80, true⟩]).2).Chain'
      (fun h1 h2 => h2.frame_id = (h1.frame_id + 1) % 2 ^ 32 ∧
        h1.timestamp < h2.timestamp) :=
  C5_frame_ids_and_timestamps 0
    [⟨⟨some ⟨1, 1, [7]⟩, some ⟨1, 1, [9, 9]⟩⟩, 5, 40, true⟩,
      ⟨⟨some ⟨1, 1, [7]⟩, some ⟨1, 1, [9, 9]⟩⟩, 9, 80, true⟩]
    (by decide) (by decide)

/-- A complete frameset per iteration, clock sample k at iteration k. -/
def wrapInput (k : Nat) : IterInput := ⟨c8frameset, k, 0, true⟩

/-- 4294967297 framesets: one more than the 32-bit counter can count. -/
def wrapInputs : List IterInput := (List.range 4294967297).map wrapInput

theorem completeInputs_wrapInputs :
    completeInputs wrapInputs = wrapInputs := by
  unfold completeInputs
  apply List.filter_eq_self.mpr
  intro a ha
  obtain ⟨k, _, rfl⟩ := List.mem_map.mp ha
  rfl

/-- C5, counterexample: `frame_count` is a `uint32_t`, so on a
4294967297-frameset session (strictly increasing clock samples, one more
frameset than the 32-bit counter can count) the header built for the
4294967297-th complete acquisition carries frame_id 0 while its
predecessor carries 4294967295: across that consecutive pair the
frame_id does not increase by exactly 1, refuting the unqualified
claim. -/
theorem C5_counterexample :
    ¬ (∀ (i : Nat) (h1 h2 : NetworkFrame),
        (builtHeaders (runStream (initState 0) wrapInputs).2)[i]? =
          some h1 →
        (builtHeaders (runStream (initState 0) wrapInputs).2)[i + 1]? =
          some h2 →
        h2.frame_id = h1.frame_id + 1 ∧
          h1.timestamp < h2.timestamp) := by
  intro hall
  have h0 : (initState 0).frame_count = 0 := rfl
  have hids : (builtHeaders (runStream (initState 0) wrapInputs).2).map
      NetworkFrame.frame_id =
      (List.range' 0 4294967297).map (fun x => x % 2 ^ 32) := by
    rw [(builtHeaders_runStream wrapInputs (initState 0)).1, h0,
      headerTrace_map_frame_id wrapInputs 0, completeInputs_wrapInputs]
    unfold wrapInputs
    rw [List.length_map, List.length_range]
  have ha' := congrArg (fun l => l[4294967295]?) hids
  have hb' := congrArg (fun l => l[4294967296]?) hids
  simp only [List.getElem?_map] at ha' hb'
  rw [List.getElem?_range' 0 1 (by norm_num)] at ha'
  rw [List.getElem?_range' 0 1 (by norm_num)] at hb'
  rw [Option.map_some'] at ha' hb'
  norm_num at ha' hb'
  obtain ⟨a, haeq, haid⟩ := ha'
  obtain ⟨b, hbeq, hbid⟩ := hb'
  have hrel := hall 4294967295 a b haeq hbeq
  have hid := hrel.1
  rw [haid, hbid] at hid
  norm_num at hid

end RS2
